import Mathlib

/-
Verification of behavioural properties of the damu_1c repository
(Python UI-automation robot).  Each Python function that a property
talks about is shallowly embedded as an executable Lean definition,
translated from the source in src/.  External library calls (the
Python float builtin, datetime.strptime, difflib ratio, the SMTP and
UI toolkits) are abstracted as explicit parameters or as outcome data
fed to the embedded control flow.
-/

namespace Damu1C

namespace Automation

/-- Python values that can be passed as the default argument of
text_to_float: None, an int, or a float (floats embedded as rationals). -/
inductive PyVal where
  | pynone : PyVal
  | pyint : Int → PyVal
  | pyfloat : ℚ → PyVal
deriving DecidableEq, Repr

/-- text_to_float from src/utils/automation.py.  The external Python
float builtin is abstracted as the parameter pyFloat, where none models
the ValueError raised on an unparseable string.  The returned value is
ok on normal return and error on a propagated ValueError. -/
def text_to_float (pyFloat : String → Option ℚ) (txt : String) (default : PyVal) :
    Except Unit ℚ :=
  match pyFloat (txt.replace "," ".") with
  | some res => .ok res
  | none =>
    match default with
    | .pyfloat d => .ok d
    | _ => .error ()

/-- wait_for from src/utils/automation.py, fuel-indexed loop body.
Time is modelled in rational seconds: poll number i of the condition
happens at elapsed time i * interval (the loop sleeps the fixed
interval after every failed poll).  Fuel exhaustion yields none; the
theorems below show the chosen fuel never runs out. -/
def wait_for_aux (condition : Nat → Bool) (timeout interval : ℚ) :
    Nat → Nat → Option Bool
  | 0, _ => none
  | fuel + 1, i =>
    if condition i then some true
    else if (i : ℚ) * interval > timeout then some false
    else wait_for_aux condition timeout interval fuel (i + 1)

/-- Fuel that suffices for wait_for to reach a decision. -/
def wait_for_fuel (timeout interval : ℚ) : Nat := ⌈timeout / interval⌉₊ + 2

/-- wait_for from src/utils/automation.py: poll condition; return True as
soon as a poll succeeds, return False once the elapsed time exceeds the
timeout with every poll having failed. -/
def wait_for (condition : Nat → Bool) (timeout interval : ℚ) : Option Bool :=
  wait_for_aux condition timeout interval (wait_for_fuel timeout interval) 0

lemma wait_for_aux_decides (condition : Nat → Bool) (timeout interval : ℚ) :
    ∀ fuel i, timeout < ((i + fuel : Nat) : ℚ) * interval →
      ∃ b, wait_for_aux condition timeout interval (fuel + 1) i = some b := by
  intro fuel
  induction fuel with
  | zero =>
    intro i hi
    simp only [Nat.add_zero] at hi
    by_cases hc : condition i
    · exact ⟨true, by simp [wait_for_aux, hc]⟩
    · exact ⟨false, by simp [wait_for_aux, hc, hi]⟩
  | succ f ih =>
    intro i hi
    by_cases hc : condition i
    · exact ⟨true, by simp [wait_for_aux, hc]⟩
    · by_cases ht : (i : ℚ) * interval > timeout
      · exact ⟨false, by simp [wait_for_aux, hc, ht]⟩
      · have hrec : timeout < (((i + 1) + f : Nat) : ℚ) * interval := by
          have : ((i + 1) + f : Nat) = (i + (f + 1) : Nat) := by omega
          rw [this]; exact hi
        obtain ⟨b, hb⟩ := ih (i + 1) hrec
        refine ⟨b, ?_⟩
        simp only [wait_for_aux, hc, ht, if_false, if_neg, Bool.false_eq_true,
          not_false_eq_true]
        exact hb

lemma wait_for_aux_true_implies (condition : Nat → Bool) (timeout interval : ℚ) :
    ∀ fuel i, wait_for_aux condition timeout interval fuel i = some true →
      ∃ j, condition j = true := by
  intro fuel
  induction fuel with
  | zero => intro i h; simp [wait_for_aux] at h
  | succ f ih =>
    intro i h
    by_cases hc : condition i
    · exact ⟨i, hc⟩
    · by_cases ht : (i : ℚ) * interval > timeout
      · simp [wait_for_aux, hc, ht] at h
      · simp only [wait_for_aux, hc, ht, if_false, if_neg, Bool.false_eq_true,
          not_false_eq_true] at h
        exact ih (i + 1) h

lemma wait_for_aux_false_implies (condition : Nat → Bool) (timeout interval : ℚ) :
    ∀ fuel i, wait_for_aux condition timeout interval fuel i = some false →
      ∃ k : Nat, timeout < (k : ℚ) * interval ∧
        ∀ j, i ≤ j → j ≤ k → condition j = false := by
  intro fuel
  induction fuel with
  | zero => intro i h; simp [wait_for_aux] at h
  | succ f ih =>
    intro i h
    by_cases hc : condition i
    · simp [wait_for_aux, hc] at h
    · by_cases ht : (i : ℚ) * interval > timeout
      · refine ⟨i, ht, ?_⟩
        intro j hij hji
        have : j = i := Nat.le_antisymm hji hij
        rw [this]
        exact Bool.eq_false_iff.mpr hc
      · simp only [wait_for_aux, hc, ht, if_false, if_neg, Bool.false_eq_true,
          not_false_eq_true] at h
        obtain ⟨k, hk, hall⟩ := ih (i + 1) h
        refine ⟨k, hk, ?_⟩
        intro j hij hjk
        rcases Nat.eq_or_lt_of_le hij with heq | hlt
        · rw [← heq]; exact Bool.eq_false_iff.mpr hc
        · exact hall j hlt hjk

lemma wait_for_total (condition : Nat → Bool) (timeout interval : ℚ)
    (hi : 0 < interval) :
    ∃ b, wait_for condition timeout interval = some b := by
  have hceil : timeout / interval ≤ (⌈timeout / interval⌉₊ : ℚ) := Nat.le_ceil _
  have h1 : timeout ≤ (⌈timeout / interval⌉₊ : ℚ) * interval :=
    (div_le_iff hi).mp hceil
  have h2 : timeout < ((0 + (⌈timeout / interval⌉₊ + 1) : Nat) : ℚ) * interval := by
    push_cast
    nlinarith
  obtain ⟨b, hb⟩ :=
    wait_for_aux_decides condition timeout interval (⌈timeout / interval⌉₊ + 1) 0 h2
  exact ⟨b, hb⟩

end Automation

/-- Claim C8: wait_for polls the condition repeatedly with a fixed sleep
interval between polls (poll j happens at elapsed time j * interval); it
returns True if some poll finds the condition true; it returns False only
once the elapsed time exceeds the timeout with every poll so far having
found the condition false; and it always terminates with an answer, in
particular returning False when the condition is never true. -/
theorem wait_for_polling_spec (condition : Nat → Bool) (timeout interval : ℚ)
    (ht : 0 ≤ timeout) (hi : 0 < interval) :
    (∃ b, Automation.wait_for condition timeout interval = some b) ∧
    (Automation.wait_for condition timeout interval = some true →
      ∃ j, condition j = true) ∧
    (Automation.wait_for condition timeout interval = some false →
      ∃ k : Nat, timeout < (k : ℚ) * interval ∧ ∀ j ≤ k, condition j = false) ∧
    ((∀ j, condition j = false) →
      Automation.wait_for condition timeout interval = some false) := by
  refine ⟨Automation.wait_for_total condition timeout interval hi, ?_, ?_, ?_⟩
  · intro h
    exact Automation.wait_for_aux_true_implies condition timeout interval _ 0 h
  · intro h
    obtain ⟨k, hk, hall⟩ :=
      Automation.wait_for_aux_false_implies condition timeout interval _ 0 h
    exact ⟨k, hk, fun j hj => hall j (Nat.zero_le j) hj⟩
  · intro hnever
    obtain ⟨b, hb⟩ := Automation.wait_for_total condition timeout interval hi
    cases b with
    | true =>
      obtain ⟨j, hj⟩ :=
        Automation.wait_for_aux_true_implies condition timeout interval _ 0 hb
      rw [hnever j] at hj
      exact absurd hj (by simp)
    | false => exact hb

theorem wait_for_polling_spec_witness :
    (0 : ℚ) ≤ 1 ∧ (0 : ℚ) < 1 ∧
      Automation.wait_for (fun _ => false) 1 1 = some false :=
  ⟨by norm_num, by norm_num,
    (wait_for_polling_spec (fun _ => false) 1 1 (by norm_num) (by norm_num)).2.2.2
      (fun _ => rfl)⟩

/-- Claim C10: text_to_float returns the float parse of the input with every
comma replaced by a dot when parsing succeeds; when parsing fails it returns
the default only when the default is exactly a Python float instance, and
otherwise (an int default, or None) re-raises the ValueError. -/
theorem text_to_float_spec (pyFloat : String → Option ℚ) (txt : String)
    (default : Automation.PyVal) :
    (∀ v, pyFloat (txt.replace "," ".") = some v →
      Automation.text_to_float pyFloat txt default = .ok v) ∧
    (pyFloat (txt.replace "," ".") = none → ∀ q, default = .pyfloat q →
      Automation.text_to_float pyFloat txt default = .ok q) ∧
    (pyFloat (txt.replace "," ".") = none → (∀ q, default ≠ .pyfloat q) →
      Automation.text_to_float pyFloat txt default = .error ()) := by
  refine ⟨?_, ?_, ?_⟩
  · intro v hv
    simp [Automation.text_to_float, hv]
  · intro hn q hq
    subst hq
    simp [Automation.text_to_float, hn]
  · intro hn hq
    cases default with
    | pynone => simp [Automation.text_to_float, hn]
    | pyint n => simp [Automation.text_to_float, hn]
    | pyfloat q => exact absurd rfl (hq q)

theorem text_to_float_spec_witness :
    Automation.text_to_float (fun _ => none) "abc" (Automation.PyVal.pyint 0) =
      .error () :=
  (text_to_float_spec (fun _ => none) "abc" (Automation.PyVal.pyint 0)).2.2 rfl
    (fun _ h => Automation.PyVal.noConfusion h)

namespace MainMod

/-- A raw row of the interest_rates table as fetched by InterestRate.load
(src/main.py): the values read from the database, in SELECT order.
Python floats are embedded as rationals. -/
structure RawInterestRateRow where
  contract_id : String
  subsid_term : Int
  nominal_rate : ℚ
  rate_one_two_three_year : ℚ
  rate_four_year : ℚ
  rate_five_year : ℚ
  rate_six_seven_year : ℚ
  rate_fee_one_two_three_year : ℚ
  rate_fee_four_year : ℚ
  rate_fee_five_year : ℚ
  rate_fee_six_seven_year : ℚ
  start_date_one_two_three_year : String
  end_date_one_two_three_year : String
  start_date_four_year : String
  end_date_four_year : String
  start_date_five_year : String
  end_date_five_year : String
  start_date_six_seven_year : String
  end_date_six_seven_year : String
deriving DecidableEq, Repr

/-- The InterestRate dataclass of src/main.py after construction
(field assignment followed by post_init). -/
structure InterestRate where
  contract_id : String
  subsid_term : Int
  nominal_rate : ℚ
  rate_one_two_three_year : ℚ
  rate_four_year : ℚ
  rate_five_year : ℚ
  rate_six_seven_year : ℚ
  rate_fee_one_two_three_year : ℚ
  rate_fee_four_year : ℚ
  rate_fee_five_year : ℚ
  rate_fee_six_seven_year : ℚ
  start_date_one_two_three_year : String
  end_date_one_two_three_year : String
  start_date_four_year : String
  end_date_four_year : String
  start_date_five_year : String
  end_date_five_year : String
  start_date_six_seven_year : String
  end_date_six_seven_year : String
deriving DecidableEq, Repr

/-- InterestRate.load of src/main.py applied to a fetched row: dataclass
construction InterestRate(*raw_rate[0]) assigns every column to the field
of the same position, then post_init multiplies the nine rate fields
by 100 in place. -/
def InterestRate.load (r : RawInterestRateRow) : InterestRate :=
  { contract_id := r.contract_id
    subsid_term := r.subsid_term
    nominal_rate := r.nominal_rate * 100
    rate_one_two_three_year := r.rate_one_two_three_year * 100
    rate_four_year := r.rate_four_year * 100
    rate_five_year := r.rate_five_year * 100
    rate_six_seven_year := r.rate_six_seven_year * 100
    rate_fee_one_two_three_year := r.rate_fee_one_two_three_year * 100
    rate_fee_four_year := r.rate_fee_four_year * 100
    rate_fee_five_year := r.rate_fee_five_year * 100
    rate_fee_six_seven_year := r.rate_fee_six_seven_year * 100
    start_date_one_two_three_year := r.start_date_one_two_three_year
    end_date_one_two_three_year := r.end_date_one_two_three_year
    start_date_four_year := r.start_date_four_year
    end_date_four_year := r.end_date_four_year
    start_date_five_year := r.start_date_five_year
    end_date_five_year := r.end_date_five_year
    start_date_six_seven_year := r.start_date_six_seven_year
    end_date_six_seven_year := r.end_date_six_seven_year }

end MainMod

/-- Claim C2: constructing an InterestRate from a row of the interest_rates
table multiplies exactly the nine rate fields by 100 and leaves contract_id,
subsid_term and all eight start/end date fields equal to the values read
from the database row. -/
theorem interest_rate_load_spec (r : MainMod.RawInterestRateRow) :
    (MainMod.InterestRate.load r).nominal_rate = r.nominal_rate * 100 ∧
    (MainMod.InterestRate.load r).rate_one_two_three_year =
      r.rate_one_two_three_year * 100 ∧
    (MainMod.InterestRate.load r).rate_four_year = r.rate_four_year * 100 ∧
    (MainMod.InterestRate.load r).rate_five_year = r.rate_five_year * 100 ∧
    (MainMod.InterestRate.load r).rate_six_seven_year =
      r.rate_six_seven_year * 100 ∧
    (MainMod.InterestRate.load r).rate_fee_one_two_three_year =
      r.rate_fee_one_two_three_year * 100 ∧
    (MainMod.InterestRate.load r).rate_fee_four_year =
      r.rate_fee_four_year * 100 ∧
    (MainMod.InterestRate.load r).rate_fee_five_year =
      r.rate_fee_five_year * 100 ∧
    (MainMod.InterestRate.load r).rate_fee_six_seven_year =
      r.rate_fee_six_seven_year * 100 ∧
    (MainMod.InterestRate.load r).contract_id = r.contract_id ∧
    (MainMod.InterestRate.load r).subsid_term = r.subsid_term ∧
    (MainMod.InterestRate.load r).start_date_one_two_three_year =
      r.start_date_one_two_three_year ∧
    (MainMod.InterestRate.load r).end_date_one_two_three_year =
      r.end_date_one_two_three_year ∧
    (MainMod.InterestRate.load r).start_date_four_year = r.start_date_four_year ∧
    (MainMod.InterestRate.load r).end_date_four_year = r.end_date_four_year ∧
    (MainMod.InterestRate.load r).start_date_five_year = r.start_date_five_year ∧
    (MainMod.InterestRate.load r).end_date_five_year = r.end_date_five_year ∧
    (MainMod.InterestRate.load r).start_date_six_seven_year =
      r.start_date_six_seven_year ∧
    (MainMod.InterestRate.load r).end_date_six_seven_year =
      r.end_date_six_seven_year := by
  repeat constructor

namespace AppMod

/-- Outcome of AppUtils.set_focus (src/utils/app.py): ok means the while
loop hit break after a successful attempt, raised means the loop exhausted
its retries and the function raised Exception with message Failed to set
focus.  attempts_made counts attempts executed; sleeps counts the fixed
5-second sleeps executed (one per failed attempt). -/
inductive FocusResult where
  | ok (attempts_made sleeps : Nat)
  | raised (attempts_made sleeps : Nat)
deriving DecidableEq, Repr

def FocusResult.attempts : FocusResult → Nat
  | .ok a _ => a
  | .raised a _ => a

/-- The default retries argument of AppUtils.set_focus. -/
def set_focus_retries : Nat := 20

/-- The fixed sleep, in seconds, after each failed set_focus attempt. -/
def set_focus_sleep_seconds : Nat := 5

/-- The while retries > 0 loop of AppUtils.set_focus.  attempt n is the
outcome of the attempt with index n (true = the focus call did not raise);
made counts attempts already executed.  A failed attempt sleeps 5 seconds,
decrements retries and continues; a successful one breaks out. -/
def set_focus_loop (attempt : Nat → Bool) : Nat → Nat → FocusResult
  | made, 0 => .raised made made
  | made, retries + 1 =>
    if attempt made then .ok (made + 1) made
    else set_focus_loop attempt (made + 1) retries

/-- Result and final backend name of an AppUtils.set_focus call. -/
structure SetFocusRun where
  result : FocusResult
  final_backend : String
deriving DecidableEq, Repr

/-- AppUtils.set_focus (src/utils/app.py).  backend is the optional backend
override, b0 the backend name on entry.  The code saves old_backend,
optionally installs the override, and restores the saved name both on the
success path and before raising. -/
def set_focus (attempt : Nat → Bool) (backend : Option String) (b0 : String) :
    SetFocusRun :=
  let old_backend := b0
  let overridden := match backend with
    | some b => b
    | none => b0
  match set_focus_loop attempt 0 set_focus_retries with
  | .ok a s =>
    { result := .ok a s
      final_backend := match backend with
        | some _ => old_backend
        | none => overridden }
  | .raised a s =>
    { result := .raised a s
      final_backend := match backend with
        | some _ => old_backend
        | none => overridden }

/-- Outcome of App.open_app (src/utils/app.py): ok means some loop
iteration connected and broke out; assertion_failed means all iterations
raised, self.app stayed None and the final assert fired. -/
inductive OpenAppResult where
  | ok (attempts_made : Nat)
  | assertion_failed
deriving DecidableEq, Repr

/-- The fixed range(10) bound of the open_app retry loop. -/
def open_app_retries : Nat := 10

/-- The for _ in range(n) loop of App.open_app: attempt n is the outcome
of iteration n (true = startfile plus connect succeeded). -/
def open_app_loop (attempt : Nat → Bool) : Nat → Nat → OpenAppResult
  | _, 0 => .assertion_failed
  | made, r + 1 =>
    if attempt made then .ok (made + 1) else open_app_loop attempt (made + 1) r

/-- App.open_app (src/utils/app.py). -/
def open_app (attempt : Nat → Bool) : OpenAppResult :=
  open_app_loop attempt 0 open_app_retries

lemma set_focus_loop_all_fail (attempt : Nat → Bool) :
    ∀ retries made, (∀ i, i < retries → attempt (made + i) = false) →
      set_focus_loop attempt made retries = .raised (made + retries) (made + retries) := by
  intro retries
  induction retries with
  | zero => intro made _; simp [set_focus_loop]
  | succ r ih =>
    intro made h
    have h0 : attempt made = false := by simpa using h 0 (Nat.succ_pos r)
    have hrest : ∀ i, i < r → attempt (made + 1 + i) = false := by
      intro i hi
      have := h (i + 1) (by omega)
      simpa [Nat.add_assoc, Nat.add_comm 1 i] using this
    have := ih (made + 1) hrest
    simp only [set_focus_loop, h0, Bool.false_eq_true, if_false]
    rw [this]
    congr 1 <;> omega

lemma set_focus_loop_raised_fail (attempt : Nat → Bool) :
    ∀ retries made a s, set_focus_loop attempt made retries = .raised a s →
      ∀ i, i < retries → attempt (made + i) = false := by
  intro retries
  induction retries with
  | zero => intro made a s _ i hi; omega
  | succ r ih =>
    intro made a s h i hi
    by_cases h0 : attempt made
    · simp [set_focus_loop, h0] at h
    · cases i with
      | zero => simpa using Bool.eq_false_iff.mpr h0
      | succ j =>
        simp only [set_focus_loop, h0, Bool.false_eq_true, if_false] at h
        have := ih (made + 1) a s h j (by omega)
        simpa [Nat.add_assoc, Nat.add_comm 1 j] using this

lemma set_focus_loop_attempts_le (attempt : Nat → Bool) :
    ∀ retries made, (set_focus_loop attempt made retries).attempts ≤ made + retries := by
  intro retries
  induction retries with
  | zero => intro made; simp [set_focus_loop, FocusResult.attempts]
  | succ r ih =>
    intro made
    by_cases h0 : attempt made
    · simp only [set_focus_loop, h0, if_true, FocusResult.attempts]; omega
    · simp only [set_focus_loop, h0, Bool.false_eq_true, if_false]
      have := ih (made + 1)
      omega

lemma set_focus_loop_ok_spec (attempt : Nat → Bool) :
    ∀ retries made a s, set_focus_loop attempt made retries = .ok a s →
      a = s + 1 ∧ made ≤ s ∧ attempt s = true ∧
        ∀ i, made ≤ i → i < s → attempt i = false := by
  intro retries
  induction retries with
  | zero => intro made a s h; simp [set_focus_loop] at h
  | succ r ih =>
    intro made a s h
    by_cases h0 : attempt made
    · simp only [set_focus_loop, h0, if_true, FocusResult.ok.injEq] at h
      obtain ⟨ha, hs⟩ := h
      subst ha; subst hs
      exact ⟨rfl, Nat.le_refl made, h0, fun i hle hlt => by omega⟩
    · simp only [set_focus_loop, h0, Bool.false_eq_true, if_false] at h
      obtain ⟨ha, hle, htrue, hall⟩ := ih (made + 1) a s h
      refine ⟨ha, by omega, htrue, ?_⟩
      intro i hi hi2
      rcases Nat.eq_or_lt_of_le hi with heq | hlt
      · rw [← heq]; exact Bool.eq_false_iff.mpr h0
      · exact hall i hlt hi2

lemma set_focus_result_eq (attempt : Nat → Bool) (backend : Option String)
    (b0 : String) :
    (set_focus attempt backend b0).result = set_focus_loop attempt 0 set_focus_retries := by
  unfold set_focus
  cases set_focus_loop attempt 0 set_focus_retries <;> simp

lemma set_focus_backend_restored (attempt : Nat → Bool) (backend : Option String)
    (b0 : String) :
    (set_focus attempt backend b0).final_backend = b0 := by
  unfold set_focus
  cases set_focus_loop attempt 0 set_focus_retries <;> cases backend <;> simp

lemma open_app_loop_fail_iff (attempt : Nat → Bool) :
    ∀ r made, open_app_loop attempt made r = .assertion_failed ↔
      ∀ i, i < r → attempt (made + i) = false := by
  intro r
  induction r with
  | zero =>
    intro made
    constructor
    · intro _ i hi; omega
    · intro _; rfl
  | succ n ih =>
    intro made
    by_cases h0 : attempt made
    · simp only [open_app_loop, h0, if_true]
      constructor
      · intro h; cases h
      · intro h
        have := h 0 (Nat.succ_pos n)
        simp [h0] at this
    · simp only [open_app_loop, h0, Bool.false_eq_true, if_false]
      rw [ih (made + 1)]
      constructor
      · intro h i hi
        cases i with
        | zero => simpa using Bool.eq_false_iff.mpr h0
        | succ j =>
          have := h j (by omega)
          simpa [Nat.add_assoc, Nat.add_comm 1 j] using this
      · intro h j hj
        have := h (j + 1) (by omega)
        simpa [Nat.add_assoc, Nat.add_comm 1 j] using this

lemma open_app_loop_ok_le (attempt : Nat → Bool) :
    ∀ r made a, open_app_loop attempt made r = .ok a → a ≤ made + r := by
  intro r
  induction r with
  | zero => intro made a h; cases h
  | succ n ih =>
    intro made a h
    by_cases h0 : attempt made
    · simp only [open_app_loop, h0, if_true, OpenAppResult.ok.injEq] at h
      omega
    · simp only [open_app_loop, h0, Bool.false_eq_true, if_false] at h
      have := ih (made + 1) a h
      omega

end AppMod

/-- Claim C5: AppUtils.set_focus makes at most 20 attempts, sleeps a fixed
5 seconds after each failed attempt, raises exactly when all 20 attempts
fail (and then 20 sleeps were executed), restores the original backend name
on every exit including the raising one, and on success the number of
sleeps equals the number of failed attempts before the successful one;
App.open_app makes at most 10 attempts and fails its final assertion
exactly when all 10 attempts are exhausted without success. -/
theorem app_retry_loops_spec (attempt attempt2 : Nat → Bool)
    (backend : Option String) (b0 : String) :
    AppMod.set_focus_retries = 20 ∧
    AppMod.set_focus_sleep_seconds = 5 ∧
    (AppMod.set_focus attempt backend b0).result.attempts ≤ 20 ∧
    ((∃ a s, (AppMod.set_focus attempt backend b0).result = .raised a s) ↔
      ∀ i, i < 20 → attempt i = false) ∧
    (∀ a s, (AppMod.set_focus attempt backend b0).result = .raised a s →
      a = 20 ∧ s = 20) ∧
    (∀ a s, (AppMod.set_focus attempt backend b0).result = .ok a s →
      a = s + 1 ∧ attempt s = true ∧ ∀ i, i < s → attempt i = false) ∧
    (AppMod.set_focus attempt backend b0).final_backend = b0 ∧
    AppMod.open_app_retries = 10 ∧
    (∀ a, AppMod.open_app attempt2 = .ok a → a ≤ 10) ∧
    (AppMod.open_app attempt2 = .assertion_failed ↔
      ∀ i, i < 10 → attempt2 i = false) := by
  have hres := AppMod.set_focus_result_eq attempt backend b0
  refine ⟨rfl, rfl, ?_, ⟨?_, ?_⟩, ?_, ?_, AppMod.set_focus_backend_restored attempt backend b0,
    rfl, ?_, ?_⟩
  · rw [hres]
    simpa using AppMod.set_focus_loop_attempts_le attempt AppMod.set_focus_retries 0
  · rintro ⟨a, s, h⟩ i hi
    rw [hres] at h
    simpa using AppMod.set_focus_loop_raised_fail attempt AppMod.set_focus_retries 0 a s h i hi
  · intro h
    refine ⟨20, 20, ?_⟩
    rw [hres]
    have := AppMod.set_focus_loop_all_fail attempt AppMod.set_focus_retries 0
      (fun i hi => by simpa using h i hi)
    simpa using this
  · intro a s h
    rw [hres] at h
    have hall : ∀ i, i < AppMod.set_focus_retries → attempt (0 + i) = false :=
      AppMod.set_focus_loop_raised_fail attempt AppMod.set_focus_retries 0 a s h
    have := AppMod.set_focus_loop_all_fail attempt AppMod.set_focus_retries 0 hall
    rw [this] at h
    obtain ⟨h2a, h2s⟩ := AppMod.FocusResult.raised.inj h
    norm_num [AppMod.set_focus_retries] at h2a h2s
    exact ⟨h2a.symm, h2s.symm⟩
  · intro a s h
    rw [hres] at h
    obtain ⟨ha, _, htrue, hall⟩ :=
      AppMod.set_focus_loop_ok_spec attempt AppMod.set_focus_retries 0 a s h
    exact ⟨ha, htrue, fun i hi => by simpa using hall i (Nat.zero_le i) hi⟩
  · intro a h
    simpa using AppMod.open_app_loop_ok_le attempt2 AppMod.open_app_retries 0 a h
  · rw [AppMod.open_app, AppMod.open_app_loop_fail_iff attempt2 AppMod.open_app_retries 0]
    constructor
    · intro h i hi; simpa using h i hi
    · intro h i hi; simpa using h i hi

theorem app_retry_loops_spec_witness :
    (AppMod.set_focus (fun i => decide (i = 1)) (some "win32") "uia").final_backend
        = "uia" ∧
    AppMod.open_app (fun _ => false) = .assertion_failed :=
  ⟨(app_retry_loops_spec (fun i => decide (i = 1)) (fun _ => false)
      (some "win32") "uia").2.2.2.2.2.2.1,
   (app_retry_loops_spec (fun i => decide (i = 1)) (fun _ => false)
      (some "win32") "uia").2.2.2.2.2.2.2.2.2.mpr (fun _ _ => rfl)⟩

namespace DbMod

/-- A FOREIGN KEY clause of a CREATE TABLE statement. -/
structure ForeignKey where
  column : String
  ref_table : String
  ref_column : String
deriving DecidableEq, Repr

/-- A CREATE TABLE statement as issued by DatabaseManager.prepare_tables
(src/utils/db_manager.py): IF NOT EXISTS flag, table name, column names in
order, and foreign key clauses. -/
structure TableStmt where
  if_not_exists : Bool
  name : String
  columns : List String
  foreign_keys : List ForeignKey
deriving DecidableEq, Repr

/-- The banks statement of prepare_tables. -/
def banks_table : TableStmt :=
  { if_not_exists := true
    name := "banks"
    columns := ["bank_id", "bank", "year_count"]
    foreign_keys := [] }

/-- The contracts statement of prepare_tables. -/
def contracts_table : TableStmt :=
  { if_not_exists := true
    name := "contracts"
    columns := ["id", "modified", "ds_id", "ds_date", "file_name", "contragent",
      "sed_number", "protocol_id", "protocol_date", "start_date", "end_date",
      "loan_amount", "subsid_amount", "investment_amount", "pos_amount",
      "vypiska_date", "iban", "df", "credit_purpose", "repayment_procedure",
      "dbz_id", "dbz_date", "request_number", "project_id", "project",
      "customer", "customer_id", "bank_id"]
    foreign_keys := [⟨"bank_id", "banks", "bank_id"⟩] }

/-- The interest_rates statement of prepare_tables. -/
def interest_rates_table : TableStmt :=
  { if_not_exists := true
    name := "interest_rates"
    columns := ["id", "modified", "subsid_term", "nominal_rate",
      "rate_one_two_three_year", "rate_four_year", "rate_five_year",
      "rate_six_seven_year", "rate_fee_one_two_three_year",
      "rate_fee_four_year", "rate_fee_five_year", "rate_fee_six_seven_year",
      "start_date_one_two_three_year", "end_date_one_two_three_year",
      "start_date_four_year", "end_date_four_year", "start_date_five_year",
      "end_date_five_year", "start_date_six_seven_year",
      "end_date_six_seven_year"]
    foreign_keys := [⟨"id", "contracts", "id"⟩] }

/-- The macros statement of prepare_tables. -/
def macros_table : TableStmt :=
  { if_not_exists := true
    name := "macros"
    columns := ["id", "modified", "macro", "shifted_macro", "df"]
    foreign_keys := [⟨"id", "contracts", "id"⟩] }

/-- The errors statement of prepare_tables. -/
def errors_table : TableStmt :=
  { if_not_exists := true
    name := "errors"
    columns := ["id", "modified", "traceback", "human_readable"]
    foreign_keys := [⟨"id", "contracts", "id"⟩] }

/-- The CREATE TABLE statements issued by prepare_tables, in source order
(its first statement, PRAGMA journal_mode=WAL, does not touch the schema). -/
def prepare_tables_stmts : List TableStmt :=
  [banks_table, contracts_table, interest_rates_table, macros_table, errors_table]

/-- SQLite semantics of one CREATE TABLE statement against a schema (an
association list from table name to table definition): with IF NOT EXISTS
an existing table is left untouched, without it an existing table is an
error; a fresh table is appended. -/
def create_table (schema : List (String × TableStmt)) (t : TableStmt) :
    Option (List (String × TableStmt)) :=
  match schema.lookup t.name with
  | some _ => if t.if_not_exists then some schema else none
  | none => some (schema ++ [(t.name, t)])

/-- DatabaseManager.prepare_tables: execute the five CREATE TABLE
IF NOT EXISTS statements in order. -/
def prepare_tables (schema : List (String × TableStmt)) :
    Option (List (String × TableStmt)) :=
  prepare_tables_stmts.foldlM create_table schema

/-- DatabaseManager.__enter__ (src/utils/db_manager.py): runs
prepare_tables first, then hands back the manager. -/
def DatabaseManager_enter (schema : List (String × TableStmt)) :
    Option (List (String × TableStmt)) :=
  prepare_tables schema

lemma lookup_append_of_some (l1 l2 : List (String × TableStmt)) (n : String)
    (td : TableStmt) (h : l1.lookup n = some td) :
    (l1 ++ l2).lookup n = some td := by
  induction l1 with
  | nil => simp [List.lookup] at h
  | cons kv rest ih =>
    rw [List.cons_append]
    by_cases hn : n == kv.1
    · simpa [List.lookup, hn] using by simpa [List.lookup, hn] using h
    · simp only [List.lookup, hn] at h ⊢
      exact ih h

lemma create_table_preserves (schema s2 : List (String × TableStmt))
    (t : TableStmt) (h : create_table schema t = some s2) (n : String)
    (td : TableStmt) (hl : schema.lookup n = some td) :
    s2.lookup n = some td := by
  unfold create_table at h
  cases hx : schema.lookup t.name with
  | some u =>
    rw [hx] at h
    by_cases hi : t.if_not_exists
    · simp [hi] at h
      rw [← h]; exact hl
    · simp [hi] at h
  | none =>
    rw [hx] at h
    simp only [Option.some.injEq] at h
    rw [← h]
    exact lookup_append_of_some schema [(t.name, t)] n td hl

lemma create_table_total (schema : List (String × TableStmt)) (t : TableStmt)
    (hi : t.if_not_exists = true) :
    ∃ s2, create_table schema t = some s2 := by
  unfold create_table
  cases hx : schema.lookup t.name with
  | some u => exact ⟨schema, by simp [hi]⟩
  | none => exact ⟨schema ++ [(t.name, t)], rfl⟩

lemma foldlM_create_total (ts : List TableStmt)
    (hall : ∀ t ∈ ts, t.if_not_exists = true) :
    ∀ schema, ∃ s2, ts.foldlM create_table schema = some s2 := by
  induction ts with
  | nil => intro schema; exact ⟨schema, rfl⟩
  | cons t rest ih =>
    intro schema
    obtain ⟨s1, hs1⟩ := create_table_total schema t (hall t (by simp))
    obtain ⟨s2, hs2⟩ := ih (fun u hu => hall u (by simp [hu])) s1
    exact ⟨s2, by simp [List.foldlM_cons, hs1, hs2]⟩

lemma foldlM_create_preserves (ts : List TableStmt) :
    ∀ schema s2, ts.foldlM create_table schema = some s2 →
      ∀ n td, schema.lookup n = some td → s2.lookup n = some td := by
  induction ts with
  | nil =>
    intro schema s2 h n td hl
    simp only [List.foldlM_nil] at h
    cases h
    exact hl
  | cons t rest ih =>
    intro schema s2 h n td hl
    simp only [List.foldlM_cons] at h
    cases hx : create_table schema t with
    | none => rw [hx] at h; cases h
    | some s1 =>
      rw [hx] at h
      simp only [Option.bind_eq_bind, Option.some_bind] at h
      exact ih s1 s2 h n td (create_table_preserves schema s1 t hx n td hl)

end DbMod

/-- Claim C6: prepare_tables creates, with CREATE TABLE IF NOT EXISTS (so it
always succeeds and existing tables are left unchanged), exactly the five
tables banks, contracts, interest_rates, macros and errors; contracts
references banks by bank_id and each of interest_rates, macros and errors
references contracts by id as a foreign key; entering the DatabaseManager
context runs prepare_tables first. -/
theorem prepare_tables_schema_spec (schema : List (String × DbMod.TableStmt)) :
    DbMod.prepare_tables_stmts.map DbMod.TableStmt.name =
      ["banks", "contracts", "interest_rates", "macros", "errors"] ∧
    (∀ t ∈ DbMod.prepare_tables_stmts, t.if_not_exists = true) ∧
    DbMod.banks_table.foreign_keys = [] ∧
    DbMod.contracts_table.foreign_keys = [⟨"bank_id", "banks", "bank_id"⟩] ∧
    DbMod.interest_rates_table.foreign_keys = [⟨"id", "contracts", "id"⟩] ∧
    DbMod.macros_table.foreign_keys = [⟨"id", "contracts", "id"⟩] ∧
    DbMod.errors_table.foreign_keys = [⟨"id", "contracts", "id"⟩] ∧
    (∃ s2, DbMod.prepare_tables schema = some s2) ∧
    (∀ s2, DbMod.prepare_tables schema = some s2 →
      ∀ n td, schema.lookup n = some td → s2.lookup n = some td) ∧
    DbMod.DatabaseManager_enter schema = DbMod.prepare_tables schema := by
  refine ⟨rfl, by decide, rfl, rfl, rfl, rfl, rfl, ?_, ?_, rfl⟩
  · exact DbMod.foldlM_create_total DbMod.prepare_tables_stmts (by decide) schema
  · intro s2 h n td hl
    exact DbMod.foldlM_create_preserves DbMod.prepare_tables_stmts schema s2 h n td hl

theorem prepare_tables_schema_spec_witness :
    List.lookup "banks"
        [("banks", DbMod.banks_table), ("contracts", DbMod.contracts_table),
         ("interest_rates", DbMod.interest_rates_table),
         ("macros", DbMod.macros_table), ("errors", DbMod.errors_table)] =
      some DbMod.banks_table :=
  (prepare_tables_schema_spec [("banks", DbMod.banks_table)]).2.2.2.2.2.2.2.2.1
    [("banks", DbMod.banks_table), ("contracts", DbMod.contracts_table),
     ("interest_rates", DbMod.interest_rates_table),
     ("macros", DbMod.macros_table), ("errors", DbMod.errors_table)]
    (by decide) "banks" DbMod.banks_table (by decide)

namespace Notification

/-- A Python exception as the handle_error wrapper distinguishes them:
KeyboardInterrupt, or any other (Base)Exception carrying the text that
traceback.format_exc renders for it. -/
inductive PyException where
  | keyboard_interrupt
  | exc (tb : String)
deriving DecidableEq, Repr

/-- Outcome of calling the wrapped function itself. -/
inductive CallResult (α : Type) where
  | ok (v : α)
  | raised (e : PyException)
deriving DecidableEq, Repr

/-- Observable effects of one call through the handle_error wrapper:
whether logging.exception ran, the message sent through the bot if any
(text, and whether a screenshot was attached), and the propagated
outcome. -/
structure WrapperTrace (α : Type) where
  logged : Bool
  bot_message : Option (String × Bool)
  outcome : CallResult α
deriving DecidableEq, Repr

/-- handle_error of src/notification.py.  developer is the DEVELOPER
environment variable, bot_present tells whether the kwargs carry a bot,
call is the outcome of func(*args, **kwargs).  A KeyboardInterrupt is
re-raised immediately; every other exception is logged, the traceback
(prefixed with the developer tag when set) is sent with a screen capture
through the bot when one is present, and the exception is re-raised. -/
def handle_error {α : Type} (developer : Option String) (bot_present : Bool)
    (call : CallResult α) : WrapperTrace α :=
  match call with
  | .ok v => { logged := false, bot_message := none, outcome := .ok v }
  | .raised .keyboard_interrupt =>
    { logged := false, bot_message := none
      outcome := .raised .keyboard_interrupt }
  | .raised (.exc tb) =>
    let error_traceback := match developer with
      | some d => ("@" ++ d ++ " ") ++ tb
      | none => tb
    { logged := true
      bot_message := if bot_present then some (error_traceback, true) else none
      outcome := .raised (.exc tb) }

end Notification

/-- Claim C1 counterexample: a wrapped call that raises KeyboardInterrupt
while a bot keyword argument is present is re-raised but neither logged nor
forwarded through the bot, refuting the claim that every raising call is
logged and, with a bot present, forwarded with a screenshot. -/
theorem handle_error_counterexample :
    (Notification.handle_error none true
        (Notification.CallResult.raised Notification.PyException.keyboard_interrupt :
          Notification.CallResult Unit)).logged = false ∧
    (Notification.handle_error none true
        (Notification.CallResult.raised Notification.PyException.keyboard_interrupt :
          Notification.CallResult Unit)).bot_message = none ∧
    (Notification.handle_error none true
        (Notification.CallResult.raised Notification.PyException.keyboard_interrupt :
          Notification.CallResult Unit)).outcome =
      Notification.CallResult.raised Notification.PyException.keyboard_interrupt :=
  ⟨rfl, rfl, rfl⟩

/-- Claim C1 (amended): a wrapped call that returns normally has its result
returned unchanged with nothing logged or sent; a call raising any
exception other than KeyboardInterrupt is logged, and when a bot keyword
argument is present the formatted traceback (possibly prefixed with the
developer tag) is sent together with a captured screenshot through the
bot, and the exception is re-raised unchanged; a call raising
KeyboardInterrupt is re-raised unchanged without logging or notification. -/
theorem handle_error_spec {α : Type} (developer : Option String)
    (bot_present : Bool) (call : Notification.CallResult α) :
    (∀ v, call = .ok v →
      Notification.handle_error developer bot_present call =
        ⟨false, none, .ok v⟩) ∧
    (∀ tb, call = .raised (.exc tb) →
      (Notification.handle_error developer bot_present call).logged = true ∧
      (Notification.handle_error developer bot_present call).outcome =
        .raised (.exc tb) ∧
      (bot_present = true → ∃ m,
        (Notification.handle_error developer bot_present call).bot_message =
          some (m, true) ∧ ∃ t, m = t ++ tb) ∧
      (bot_present = false →
        (Notification.handle_error developer bot_present call).bot_message =
          none)) ∧
    (call = .raised .keyboard_interrupt →
      Notification.handle_error developer bot_present call =
        ⟨false, none, .raised .keyboard_interrupt⟩) := by
  refine ⟨?_, ?_, ?_⟩
  · intro v h
    subst h
    rfl
  · intro tb h
    subst h
    refine ⟨rfl, rfl, ?_, ?_⟩
    · intro hb
      subst hb
      cases developer with
      | none =>
        exact ⟨tb, rfl, "", by simp⟩
      | some d =>
        exact ⟨("@" ++ d ++ " ") ++ tb, rfl, "@" ++ d ++ " ", rfl⟩
    · intro hb
      subst hb
      rfl
  · intro h
    subst h
    rfl

theorem handle_error_spec_witness :
    (Notification.handle_error (some "dev") true
        (Notification.CallResult.raised (Notification.PyException.exc "boom") :
          Notification.CallResult Unit)).logged = true :=
  ((handle_error_spec (some "dev") true
      (Notification.CallResult.raised (Notification.PyException.exc "boom") :
        Notification.CallResult Unit)).2.1 "boom" rfl).1

namespace DataMod

/-- Model of a Python datetime value (the date part, which is all the
formats %d.%m.%Y and %d.%m.%y consume). -/
structure PyDatetime where
  year : Nat
  month : Nat
  day : Nat
deriving DecidableEq, Repr

/-- Two-digit zero-padded rendering, as strftime %d, %m and %y produce for
their in-range values (days, months, two-digit years are all below 100). -/
def pad2 (n : Nat) : String :=
  String.mk [Nat.digitChar (n / 10), Nat.digitChar (n % 10)]

/-- strftime with format %d.%m.%Y. -/
def strftime_long (dt : PyDatetime) : String :=
  pad2 dt.day ++ "." ++ pad2 dt.month ++ "." ++ toString dt.year

/-- strftime with format %d.%m.%y. -/
def strftime_short (dt : PyDatetime) : String :=
  pad2 dt.day ++ "." ++ pad2 dt.month ++ "." ++ pad2 (dt.year % 100)

/-- The Date named tuple of src/data.py: a datetime together with its long
and short renderings. -/
structure Date where
  dt : PyDatetime
  long : String
  short : String
deriving DecidableEq, Repr

/-- Date.to_date of src/data.py. -/
def Date.to_date (dt : PyDatetime) : Date :=
  { dt := dt, long := strftime_long dt, short := strftime_short dt }

/-- The runtime type of a date field before normalization: already a Date,
a datetime, a string, or a value of any other type. -/
inductive FieldValue where
  | date (d : Date)
  | dtime (dt : PyDatetime)
  | str (s : String)
  | other
deriving DecidableEq, Repr

/-- The error raised by convert_date and strptime. -/
inductive PyError where
  | valueError
deriving DecidableEq, Repr

/-- convert_date of src/data.py applied to the value of one field.  The
external datetime.strptime for the given date format is abstracted as the
parameter strptime, with none standing for the ValueError it raises on an
unparseable string.  The result is the new field value, or the ValueError
the function lets escape. -/
def convert_date (strptime : String → Option PyDatetime)
    (field_value : FieldValue) : Except PyError FieldValue :=
  match field_value with
  | .date _ => .ok field_value
  | .dtime dt => .ok (.date (Date.to_date dt))
  | .str s =>
    match strptime s with
    | some dt => .ok (.date (Date.to_date dt))
    | none => .error .valueError
  | .other => .error .valueError

/-- The BusinessTripOrder dataclass of src/data.py; its three date fields
hold a FieldValue, every other field is carried unchanged. -/
structure BusinessTripOrder where
  employee_fullname : String
  employee_names : String × String
  order_number : String
  start_date : FieldValue
  end_date : FieldValue
  trip_place : String
  trip_code : String
  trip_reason : String
  main_order_start_date : FieldValue
  was_done_previously : Bool
  screenshot_path : String
  employee_status : Option String
  branch_num : Option String
  tab_num : Option String
deriving DecidableEq, Repr

/-- BusinessTripOrder post_init: convert_date on start_date, end_date and
main_order_start_date, each with date format %d.%m.%y (the strptime
parameter is the parser for that format). -/
def business_trip_order_post_init (strptime : String → Option PyDatetime)
    (o : BusinessTripOrder) : Except PyError BusinessTripOrder :=
  match convert_date strptime o.start_date with
  | .error e => .error e
  | .ok sd =>
    match convert_date strptime o.end_date with
    | .error e => .error e
    | .ok ed =>
      match convert_date strptime o.main_order_start_date with
      | .error e => .error e
      | .ok md =>
        .ok { o with start_date := sd, end_date := ed, main_order_start_date := md }

/-- The VacationOrder dataclass of src/data.py. -/
structure VacationOrder where
  employee_fullname : String
  employee_names : String × String
  order_type : String
  start_date : FieldValue
  end_date : FieldValue
  order_number : String
  was_done_previously : Bool
  screenshot_path : String
  employee_status : Option String
  branch_num : Option String
  tab_num : Option String
deriving DecidableEq, Repr

/-- VacationOrder post_init: convert_date on start_date and end_date with
date format %d.%m.%y. -/
def vacation_order_post_init (strptime : String → Option PyDatetime)
    (o : VacationOrder) : Except PyError VacationOrder :=
  match convert_date strptime o.start_date with
  | .error e => .error e
  | .ok sd =>
    match convert_date strptime o.end_date with
    | .error e => .error e
    | .ok ed => .ok { o with start_date := sd, end_date := ed }

end DataMod

/-- Claim C3: convert_date leaves a field that is already a Date unchanged,
replaces a datetime field with Date.to_date of it (whose long form is the
%d.%m.%Y and short form the %d.%m.%y rendering of that datetime), replaces
a string field with the Date obtained from parsing it with the given
format, and raises ValueError for a field of any other type; the order
dataclasses (here BusinessTripOrder and VacationOrder) apply this
normalization to exactly their date fields in their constructors. -/
theorem convert_date_normalization_spec
    (strptime : String → Option DataMod.PyDatetime) :
    (∀ d, DataMod.convert_date strptime (.date d) = .ok (.date d)) ∧
    (∀ dt, DataMod.convert_date strptime (.dtime dt) =
        .ok (.date (DataMod.Date.to_date dt)) ∧
      (DataMod.Date.to_date dt).dt = dt ∧
      (DataMod.Date.to_date dt).long = DataMod.strftime_long dt ∧
      (DataMod.Date.to_date dt).short = DataMod.strftime_short dt) ∧
    (∀ s dt, strptime s = some dt →
      DataMod.convert_date strptime (.str s) =
        .ok (.date (DataMod.Date.to_date dt))) ∧
    (DataMod.convert_date strptime .other = .error .valueError) ∧
    (∀ (o : DataMod.BusinessTripOrder) v1 v2 v3,
      DataMod.convert_date strptime o.start_date = .ok v1 →
      DataMod.convert_date strptime o.end_date = .ok v2 →
      DataMod.convert_date strptime o.main_order_start_date = .ok v3 →
      DataMod.business_trip_order_post_init strptime o =
        .ok { o with
              start_date := v1
              end_date := v2
              main_order_start_date := v3 }) ∧
    (∀ (o : DataMod.VacationOrder) v1 v2,
      DataMod.convert_date strptime o.start_date = .ok v1 →
      DataMod.convert_date strptime o.end_date = .ok v2 →
      DataMod.vacation_order_post_init strptime o =
        .ok { o with start_date := v1, end_date := v2 }) := by
  refine ⟨fun d => rfl, fun dt => ⟨rfl, rfl, rfl, rfl⟩, ?_, rfl, ?_, ?_⟩
  · intro s dt h
    simp [DataMod.convert_date, h]
  · intro o v1 v2 v3 h1 h2 h3
    simp [DataMod.business_trip_order_post_init, h1, h2, h3]
  · intro o v1 v2 h1 h2
    simp [DataMod.vacation_order_post_init, h1, h2]

theorem convert_date_normalization_spec_witness :
    DataMod.convert_date (fun _ => some ⟨2025, 3, 14⟩)
        (.str "14.03.25") =
      .ok (.date (DataMod.Date.to_date ⟨2025, 3, 14⟩)) :=
  (convert_date_normalization_spec (fun _ => some ⟨2025, 3, 14⟩)).2.2.1
    "14.03.25" ⟨2025, 3, 14⟩ rfl

namespace MainMod

/-- Python string indexing s[i] (by code point); none models the
IndexError raised on an out-of-range index. -/
def charAt (s : String) (i : Nat) : Option Char := s.data.get? i

/-- Model of datetime.fromisoformat on date strings: the YYYY-MM-DD form
with in-range month and day; none stands for the ValueError raised on
anything else. -/
def fromisoformat (s : String) : Option DataMod.PyDatetime :=
  match s.data with
  | [y1, y2, y3, y4, h1, m1, m2, h2, d1, d2] =>
    if y1.isDigit ∧ y2.isDigit ∧ y3.isDigit ∧ y4.isDigit ∧ h1 = '-' ∧
        m1.isDigit ∧ m2.isDigit ∧ h2 = '-' ∧ d1.isDigit ∧ d2.isDigit then
      let toD : Char → Nat := fun c => c.toNat - 48
      let year := toD y1 * 1000 + toD y2 * 100 + toD y3 * 10 + toD y4
      let month := toD m1 * 10 + toD m2
      let day := toD d1 * 10 + toD d2
      if 1 ≤ month ∧ month ≤ 12 ∧ 1 ≤ day ∧ day ≤ 31 then
        some ⟨year, month, day⟩
      else
        none
    else
      none
  | _ => none

/-- iso_to_standard of src/main.py: a string with dots at indices 2 and 5
is returned unchanged, anything else is parsed as an ISO date and
reformatted with strftime %d.%m.%Y; none models the IndexError of the
index accesses and the ValueError of fromisoformat. -/
def iso_to_standard (dt : String) : Option String :=
  match charAt dt 2 with
  | none => none
  | some c2 =>
    if c2 = '.' then
      match charAt dt 5 with
      | none => none
      | some c5 =>
        if c5 = '.' then some dt
        else (fromisoformat dt).map DataMod.strftime_long
    else (fromisoformat dt).map DataMod.strftime_long

lemma strftime_long_dots (d : DataMod.PyDatetime) :
    charAt (DataMod.strftime_long d) 2 = some '.' ∧
      charAt (DataMod.strftime_long d) 5 = some '.' := by
  have hdata : (DataMod.strftime_long d).data =
      Nat.digitChar (d.day / 10) :: Nat.digitChar (d.day % 10) :: '.' ::
        Nat.digitChar (d.month / 10) :: Nat.digitChar (d.month % 10) :: '.' ::
        (toString d.year).data := by
    simp [DataMod.strftime_long, DataMod.pad2, String.data_append]
  constructor <;> simp [charAt, hdata]

/-- find_row of src/main.py: scan the on-screen rows (modelled by their
window_text), skip rows whose stripped text is blank, and return the first
row whose stripped text scores a similarity of at least 0.8 against the
project; the external SequenceMatcher ratio is abstracted as the parameter
ratio. -/
def find_row (ratio : String → String → ℚ) (project : String) :
    List String → Option String
  | [] => none
  | row :: rest =>
    let txt := row.trim
    if txt = "" then find_row ratio project rest
    else if 8 / 10 ≤ ratio project txt then some row
    else find_row ratio project rest

/-- What find_project does once the query has been submitted: the printed
not-found early return, or proceeding with the matched row. -/
inductive FindProjectOutcome where
  | not_found_printed
  | proceeded (row : String)
deriving DecidableEq, Repr

/-- find_project of src/main.py, from the wait on the Delete button on:
wait_for the query result for 10 seconds (polling the enabled state at the
default 0.1-second interval); on timeout print the not-found message and
return early; otherwise look up the row matching the project of the
contract and, when none qualifies, print the not-found message and return
early.  The returned value is total: neither path raises. -/
def find_project (delete_enabled : Nat → Bool) (ratio : String → String → ℚ)
    (project : String) (rows : List String) : FindProjectOutcome :=
  if Automation.wait_for delete_enabled 10 (1 / 10) ≠ some true then
    .not_found_printed
  else
    match find_row ratio project rows with
    | none => .not_found_printed
    | some row => .proceeded row

lemma find_row_some_spec (ratio : String → String → ℚ) (project : String) :
    ∀ rows r, find_row ratio project rows = some r →
      ∃ pre post, rows = pre ++ r :: post ∧ r.trim ≠ "" ∧
        8 / 10 ≤ ratio project r.trim ∧
        ∀ x ∈ pre, x.trim = "" ∨ ratio project x.trim < 8 / 10 := by
  intro rows
  induction rows with
  | nil => intro r h; simp [find_row] at h
  | cons row rest ih =>
    intro r h
    by_cases hb : row.trim = ""
    · simp only [find_row, hb, if_true] at h
      obtain ⟨pre, post, hsplit, hr1, hr2, hall⟩ := ih r h
      refine ⟨row :: pre, post, by simp [hsplit], hr1, hr2, ?_⟩
      intro x hx
      rcases List.mem_cons.mp hx with hx | hx
      · subst hx; exact Or.inl hb
      · exact hall x hx
    · by_cases hs : 8 / 10 ≤ ratio project row.trim
      · simp only [find_row, hb, if_false, hs, if_true, Option.some.injEq] at h
        subst h
        exact ⟨[], rest, rfl, hb, hs, by simp⟩
      · simp only [find_row, hb, if_false, hs, if_true] at h
        obtain ⟨pre, post, hsplit, hr1, hr2, hall⟩ := ih r h
        refine ⟨row :: pre, post, by simp [hsplit], hr1, hr2, ?_⟩
        intro x hx
        rcases List.mem_cons.mp hx with hx | hx
        · subst hx; exact Or.inr (lt_of_not_le hs)
        · exact hall x hx

lemma find_row_none_iff (ratio : String → String → ℚ) (project : String) :
    ∀ rows, find_row ratio project rows = none ↔
      ∀ x ∈ rows, x.trim = "" ∨ ratio project x.trim < 8 / 10 := by
  intro rows
  induction rows with
  | nil => simp [find_row]
  | cons row rest ih =>
    by_cases hb : row.trim = ""
    · simp only [find_row, hb, if_true]
      rw [ih]
      constructor
      · intro h x hx
        rcases List.mem_cons.mp hx with hx | hx
        · subst hx; exact Or.inl hb
        · exact h x hx
      · intro h x hx
        exact h x (List.mem_cons_of_mem row hx)
    · by_cases hs : 8 / 10 ≤ ratio project row.trim
      · simp only [find_row, hb, if_false, hs, if_true]
        constructor
        · intro h; cases h
        · intro h
          rcases h row (List.mem_cons_self row rest) with hx | hx
          · exact absurd hx hb
          · exact absurd hs (not_le_of_lt hx)
      · simp only [find_row, hb, if_false, hs, if_true]
        rw [ih]
        constructor
        · intro h x hx
          rcases List.mem_cons.mp hx with hx | hx
          · subst hx; exact Or.inr (lt_of_not_le hs)
          · exact h x hx
        · intro h x hx
          exact h x (List.mem_cons_of_mem row hx)

end MainMod

/-- Claim C9: iso_to_standard returns a string with dots at indices 2 and 5
unchanged; every defined output has dots at indices 2 and 5 (the parsed
branch reformats with %d.%m.%Y, whose day and month are two zero-padded
digits); hence iso_to_standard is idempotent on every string on which it is
defined. -/
theorem iso_to_standard_idempotent_spec (s r : String) :
    (MainMod.charAt s 2 = some '.' → MainMod.charAt s 5 = some '.' →
      MainMod.iso_to_standard s = some s) ∧
    (MainMod.iso_to_standard s = some r →
      MainMod.charAt r 2 = some '.' ∧ MainMod.charAt r 5 = some '.') ∧
    (MainMod.iso_to_standard s = some r →
      MainMod.iso_to_standard r = some r) := by
  have part1 : ∀ t : String, MainMod.charAt t 2 = some '.' →
      MainMod.charAt t 5 = some '.' → MainMod.iso_to_standard t = some t := by
    intro t h2 h5
    simp [MainMod.iso_to_standard, h2, h5]
  have part2 : MainMod.iso_to_standard s = some r →
      MainMod.charAt r 2 = some '.' ∧ MainMod.charAt r 5 = some '.' := by
    intro h
    unfold MainMod.iso_to_standard at h
    cases h2 : MainMod.charAt s 2 with
    | none => simp [h2] at h
    | some c2 =>
      simp only [h2] at h
      by_cases hc2 : c2 = '.'
      · rw [if_pos hc2] at h
        cases h5 : MainMod.charAt s 5 with
        | none => simp [h5] at h
        | some c5 =>
          simp only [h5] at h
          by_cases hc5 : c5 = '.'
          · rw [if_pos hc5] at h
            have hsr : s = r := by injection h
            subst hsr
            subst hc2
            subst hc5
            exact ⟨h2, h5⟩
          · rw [if_neg hc5] at h
            obtain ⟨d, _, hr⟩ := Option.map_eq_some.mp h
            subst hr
            exact MainMod.strftime_long_dots d
      · rw [if_neg hc2] at h
        obtain ⟨d, _, hr⟩ := Option.map_eq_some.mp h
        subst hr
        exact MainMod.strftime_long_dots d
  exact ⟨part1 s, part2, fun h => part1 r (part2 h).1 (part2 h).2⟩

theorem iso_to_standard_idempotent_spec_witness :
    MainMod.iso_to_standard "14.03.2025" = some "14.03.2025" :=
  (iso_to_standard_idempotent_spec "2025-03-14" "14.03.2025").2.2 (by decide)

/-- Claim C4: when the query result does not become available within the
10-second wait, or no on-screen row matches the project with similarity at
least 0.8, find_project evaluates to the printed not-found early return
(a value of the total outcome type, so no exception escapes); find_row
returns the first row with non-blank stripped text whose similarity is at
least 0.8, and None exactly when no row qualifies. -/
theorem find_project_not_found_spec (delete_enabled : Nat → Bool)
    (ratio : String → String → ℚ) (project : String) (rows : List String) :
    (Automation.wait_for delete_enabled 10 (1 / 10) ≠ some true →
      MainMod.find_project delete_enabled ratio project rows =
        .not_found_printed) ∧
    (MainMod.find_row ratio project rows = none →
      MainMod.find_project delete_enabled ratio project rows =
        .not_found_printed) ∧
    (∀ r, MainMod.find_row ratio project rows = some r →
      ∃ pre post, rows = pre ++ r :: post ∧ r.trim ≠ "" ∧
        8 / 10 ≤ ratio project r.trim ∧
        ∀ x ∈ pre, x.trim = "" ∨ ratio project x.trim < 8 / 10) ∧
    (MainMod.find_row ratio project rows = none ↔
      ∀ x ∈ rows, x.trim = "" ∨ ratio project x.trim < 8 / 10) := by
  refine ⟨?_, ?_, MainMod.find_row_some_spec ratio project rows,
    MainMod.find_row_none_iff ratio project rows⟩
  · intro h
    unfold MainMod.find_project
    rw [if_pos h]
  · intro h
    unfold MainMod.find_project
    by_cases hw : Automation.wait_for delete_enabled 10 (1 / 10) ≠ some true
    · rw [if_pos hw]
    · rw [if_neg hw, h]

theorem find_project_not_found_spec_witness :
    MainMod.find_project (fun _ => true) (fun _ _ => 0) "project" [] =
      .not_found_printed :=
  (find_project_not_found_spec (fun _ => true) (fun _ _ => 0) "project" []).2.1
    rfl

namespace DataMod

/-- The TimeRange named tuple of src/data.py (end is a Lean keyword, hence
the quoted field name). -/
structure TimeRange where
  start : Date
  «end» : Date
deriving DecidableEq, Repr

/-- The Mail named tuple of src/data.py; the two Path fields are modelled
by their path strings. -/
structure Mail where
  server : String
  sender : String
  recipients : String
  subject : String
  report_path : String
  screenshot_folder : String
deriving DecidableEq, Repr

/-- The Job named tuple of src/data.py, restricted to the fields send_mail
reads: the name of the job type, the processed time range, and the mail
configuration. -/
structure Job where
  job_type_name : String
  t_range : TimeRange
  mail_info : Mail
deriving DecidableEq, Repr

end DataMod

namespace Notification

/-- Outcome of the smtplib sendmail call: the dictionary of refused
recipients it returned (empty = every recipient accepted), or an
SMTPException it raised. -/
inductive SmtpOutcome where
  | sent (refused : List (String × String))
  | smtp_exception
deriving DecidableEq, Repr

/-- The observable effect of send_mail: the filtered recipient list, the
file attachments added to the message in order (the MIMEText body is
tracked separately), the body text, and the returned boolean. -/
structure MailSendTrace where
  recipients_lst : List String
  attachments : List String
  body : String
  returned : Bool
deriving DecidableEq, Repr

/-- attach_file of src/notification.py acting on the list of attachment
file names of the message: the explicit file_name argument when it is a
non-empty string, the name of the attached path otherwise (a path is
modelled by its name string). -/
def attach_file (attachments : List String) (file_path : String)
    (file_name : Option String) : List String :=
  attachments ++
    [match file_name with
     | some n => if n = "" then file_path else n
     | none => file_path]

/-- send_mail of src/notification.py.  job and is_empty are its arguments;
smtp is the outcome of the smtplib sendmail call.  With is_empty the body
reports an empty period and nothing is attached; otherwise the report file
and the zip archive of the screenshot folder are attached.  The function
returns True exactly when sendmail neither raised SMTPException nor
returned refused recipients. -/
def send_mail (job : DataMod.Job) (is_empty : Bool) (smtp : SmtpOutcome) :
    MailSendTrace :=
  let mail_info := job.mail_info
  let t_range := job.t_range
  let recipients_lst := (mail_info.recipients.splitOn ";").filter
    (fun r => r ≠ "")
  let subject_body := mail_info.subject
  let step :=
    if is_empty then
      (subject_body ++ "\n\nНет приказов на период с " ++ t_range.start.short ++
        " по " ++ t_range.«end».short ++ ".", ([] : List String))
    else
      let body := subject_body ++ "\n\nПриказы на период с " ++
        t_range.start.short ++ " по " ++ t_range.«end».short ++ "."
      let atts := attach_file [] mail_info.report_path none
      let archive_name := "screenshots_" ++ t_range.«end».short ++ ".zip"
      let atts := attach_file atts archive_name (some archive_name)
      (body, atts)
  { recipients_lst := recipients_lst
    attachments := step.2
    body := step.1
    returned :=
      match smtp with
      | .sent [] => true
      | .sent (_ :: _) => false
      | .smtp_exception => false }

end Notification

/-- Claim C7: with is_empty false, send_mail attaches exactly the report
file and the zip archive of the screenshot folder (in that order) besides
the text body; with is_empty true it attaches nothing besides the text
body; and it returns True exactly when the SMTP send raised no
SMTPException and every recipient accepted the message, returning False
(rather than raising) otherwise. -/
theorem send_mail_spec (job : DataMod.Job) (is_empty : Bool)
    (smtp : Notification.SmtpOutcome) :
    (is_empty = false →
      (Notification.send_mail job is_empty smtp).attachments =
        [job.mail_info.report_path,
         "screenshots_" ++ job.t_range.«end».short ++ ".zip"]) ∧
    (is_empty = true →
      (Notification.send_mail job is_empty smtp).attachments = []) ∧
    ((Notification.send_mail job is_empty smtp).returned = true ↔
      smtp = .sent []) := by
  refine ⟨?_, ?_, ?_⟩
  · intro h
    subst h
    simp [Notification.send_mail, Notification.attach_file]
  · intro h
    subst h
    simp [Notification.send_mail]
  · cases smtp with
    | sent refused =>
      cases refused with
      | nil => simp [Notification.send_mail]
      | cons p rest => simp [Notification.send_mail]
    | smtp_exception => simp [Notification.send_mail]

theorem send_mail_spec_witness :
    (Notification.send_mail
        ⟨"VACATION",
         ⟨DataMod.Date.to_date ⟨2025, 1, 1⟩, DataMod.Date.to_date ⟨2025, 2, 3⟩⟩,
         ⟨"srv", "from", "a;b", "subj", "report.xlsx", "shots"⟩⟩
        true (Notification.SmtpOutcome.sent [])).attachments = [] :=
  (send_mail_spec
      ⟨"VACATION",
       ⟨DataMod.Date.to_date ⟨2025, 1, 1⟩, DataMod.Date.to_date ⟨2025, 2, 3⟩⟩,
       ⟨"srv", "from", "a;b", "subj", "report.xlsx", "shots"⟩⟩
      true (Notification.SmtpOutcome.sent [])).2.1 rfl

end Damu1C
